import Mathlib

/-
Verification of the chronoframe print-photo pipeline.

The definitions below are a shallow embedding of:
  - src/server/services/image/print-processor.ts  (processPrintPhoto, first variant)
  - src/unnamed/part_003                          (processPrintPhoto, second variant
                                                   with the EXIF reattachment branch)
  - src/server/routes/storage/print/[imageName].get.ts  (both route variants)

JavaScript numeric primitives are modelled over the rationals:
Math.round rounds half toward positive infinity, Math.floor is the
integer floor, Math.abs is the usual absolute value.
-/

/-- Math.round: rounds half toward positive infinity. -/
def jsRound (q : ℚ) : ℤ := ⌊q + 1/2⌋

/-- Math.floor. -/
def jsFloor (q : ℚ) : ℤ := ⌊q⌋

/-- Math.abs. -/
def jsAbs (q : ℚ) : ℚ := if q < 0 then -q else q

/-- Geometry plan produced by the geometry section of processPrintPhoto:
content dimensions after crop, watermark band height, and whether the
source was conceptually rotated (portrait input). -/
structure GeometryPlan where
  contentWidth : ℤ
  contentHeight : ℤ
  bandHeight : ℤ
  rotated : Bool

/-- print-processor.ts lines 52-69: portrait sources (aspect below 1) are
rotated so that width and height swap for all later math. -/
def rotateDims (srcW srcH : ℤ) : ℤ × ℤ :=
  if (srcW : ℚ) / srcH < 1 then (srcH, srcW) else (srcW, srcH)

/-- print-processor.ts lines 71-114: if the current aspect differs from 3:2
by more than 0.001, center-crop the longer dimension to reach 3:2.
Crop offsets in the source are Math.round((current - target)/2); only the
resulting dimensions matter for later stages. -/
def cropTo32 (w h : ℤ) : ℤ × ℤ :=
  if 1/1000 < jsAbs ((w : ℚ) / h - 3/2) then
    if 3/2 < (w : ℚ) / h then
      (jsRound ((h : ℚ) * (3/2)), h)
    else
      (w, jsRound ((w : ℚ) / (3/2)))
  else (w, h)

/-- print-processor.ts lines 116-144: watermark band floor policy. When the
band height Math.round(w*3/4) - h is nonpositive, the content height is
re-cropped down to Math.floor(w*3/4) - 50 provided that value is positive
and smaller than the current height; otherwise the height is unchanged. -/
def floorAdjustHeight (w h : ℤ) : ℤ :=
  if jsRound ((w : ℚ) * 3 / 4) - h ≤ 0 then
    if 0 < jsFloor ((w : ℚ) * 3 / 4) - 50 ∧ jsFloor ((w : ℚ) * 3 / 4) - 50 < h then
      jsFloor ((w : ℚ) * 3 / 4) - 50
    else h
  else h

/-- Dimensions after rotation and the 3:2 crop stage. -/
def croppedDims (srcW srcH : ℤ) : ℤ × ℤ :=
  cropTo32 (rotateDims srcW srcH).1 (rotateDims srcW srcH).2

/-- Holds when the watermark-band floor policy is engaged, i.e. the band
height computed after the 3:2 crop is nonpositive (print-processor.ts
line 122). -/
def floorPolicyEngaged (srcW srcH : ℤ) : Prop :=
  jsRound (((croppedDims srcW srcH).1 : ℚ) * 3 / 4) - (croppedDims srcW srcH).2 ≤ 0

/-- The full geometry plan: rotation, 3:2 crop, floor policy, and the final
band height Math.round(w*3/4) - h (print-processor.ts lines 146-148). -/
def planGeometry (srcW srcH : ℤ) : GeometryPlan :=
  { contentWidth := (croppedDims srcW srcH).1
    contentHeight := floorAdjustHeight (croppedDims srcW srcH).1 (croppedDims srcW srcH).2
    bandHeight := jsRound (((croppedDims srcW srcH).1 : ℚ) * 3 / 4) -
      floorAdjustHeight (croppedDims srcW srcH).1 (croppedDims srcW srcH).2
    rotated := decide ((srcW : ℚ) / srcH < 1) }

/-- Width to height aspect of the plan content, as a rational. -/
def contentAspect (g : GeometryPlan) : ℚ := (g.contentWidth : ℚ) / g.contentHeight

/-- The two possible overlay foreground colors (print-processor.ts line 174). -/
inductive FgColor
  | black
  | white
deriving DecidableEq

/-- print-processor.ts line 171: relative luminance of the rounded dominant
color, channels normalized by 255. -/
def relativeLuminance (r g b : ℤ) : ℚ :=
  2126/10000 * ((r : ℚ) / 255) + 7152/10000 * ((g : ℚ) / 255) + 722/10000 * ((b : ℚ) / 255)

/-- print-processor.ts lines 157-174: the dominant color channels are the
rounded per-channel means of the downsampled image; the foreground is black
when the relative luminance exceeds 0.5 and white otherwise. -/
def foregroundColor (rMean gMean bMean : ℚ) : FgColor :=
  if 1/2 < relativeLuminance (jsRound rMean) (jsRound gMean) (jsRound bMean) then
    FgColor.black
  else FgColor.white

/-- Hex rendering of the foreground color (print-processor.ts line 175). -/
def foregroundColorHex : FgColor → String
  | FgColor.black => "#000000"
  | FgColor.white => "#ffffff"

/-- Stroke color of every drawn text: the opposite of the foreground
(print-processor.ts lines 273-294). -/
def strokeColor : FgColor → FgColor
  | FgColor.white => FgColor.black
  | FgColor.black => FgColor.white

/-- print-processor.ts line 228: dynamic font size for the overlay text. -/
def fontSize (band : ℤ) : ℤ := max 8 (jsRound ((band : ℚ) / 4))

/-- print-processor.ts line 247: QR size is the band height minus a 20 unit
margin; no lower bound is applied. -/
def qrCodeSize (band : ℤ) : ℤ := band - 20

/-- The QR raster parameters assembled by processPrintPhoto. -/
structure QrSpec where
  size : ℤ
  posX : ℤ
  posY : ℤ
  dark : String
  light : String
deriving DecidableEq

/-- print-processor.ts lines 246-259: QR size, colors and placement.
posX is Math.round((width - size)/2); posY is the content height plus
Math.round((band - size)/2); dark modules use the foreground hex color and
the light modules are transparent. -/
def mkQrSpec (w h band : ℤ) (fgHex : String) : QrSpec :=
  { size := qrCodeSize band
    posX := jsRound (((w - qrCodeSize band : ℤ) : ℚ) / 2)
    posY := h + jsRound (((band - qrCodeSize band : ℤ) : ℚ) / 2)
    dark := fgHex
    light := "#ffffff00" }

/-! ### String helpers shared by the route handlers and the processor -/

/-- Does the first list occur as a contiguous prefix of the second list. -/
def charsStartWith : List Char → List Char → Bool
  | [], _ => true
  | _ :: _, [] => false
  | a :: as, b :: bs => a == b && charsStartWith as bs

/-- Does the first list occur contiguously anywhere inside the second. -/
def charsHasSub (sub : List Char) : List Char → Bool
  | [] => charsStartWith sub []
  | b :: bs => charsStartWith sub (b :: bs) || charsHasSub sub bs

/-- JavaScript String.prototype.includes. -/
def strHasSub (sub s : String) : Bool := charsHasSub sub.toList s.toList

/-- The path-traversal guard of both route variants
([imageName].get.ts lines 33 and 96): the image name contains "..",
"/" or a backslash. -/
def hasTraversal (name : String) : Bool :=
  strHasSub ".." name || strHasSub "/" name || strHasSub "\\" name

/-- The segment of a string after the last occurrence of the separator;
the whole string when the separator does not occur. -/
def lastSegment (sep : Char) (s : String) : String :=
  String.mk (s.toList.foldl (fun acc c => if c = sep then [] else acc ++ [c]) [])

/-- node path.basename for storage keys (keys never end in a slash). -/
def basename (s : String) : String := lastSegment '/' s

/-- Lower-cases every character. -/
def lowerStr (s : String) : String := String.mk (s.toList.map Char.toLower)

/-- [imageName].get.ts lines 9-24: content type from the extension, taken as
the lower-cased part after the last dot. -/
def guessContentType (p : String) : String :=
  let ext := lowerStr (lastSegment '.' p)
  if ext = "jpg" ∨ ext = "jpeg" then "image/jpeg"
  else if ext = "png" then "image/png"
  else if ext = "webp" then "image/webp"
  else if ext = "gif" then "image/gif"
  else "application/octet-stream"

/-! ### Serving route model ([imageName].get.ts, both variants) -/

/-- The task specification the second route variant submits to the queue
([imageName].get.ts lines 149-158). -/
structure PrintTaskSpec where
  taskType : String
  storageKey : String
  photoId : Option String
  locationName : String
  priority : ℤ
  maxAttempts : ℤ
  taskStatus : String
deriving DecidableEq

/-- Response of a route handler: a streamed file or an error with an HTTP
status code and status message. -/
inductive RouteResponse
  | stream (fsPath contentType : String)
  | err (status : ℤ) (msg : String)
deriving DecidableEq

/-- What a handler run produced: the response, the queue tasks it submitted,
and the filesystem paths it checked or read, in order. -/
structure RouteOutcome where
  response : RouteResponse
  enqueued : List PrintTaskSpec
  fsChecked : List String
deriving DecidableEq

/-- Environment a request runs against: storage backend kind, whether the
print artifact and the source image exist on disk, and the photo row the
database lookup returns (id and locationName), if any. -/
structure RouteEnv where
  providerLocal : Bool
  printExists : Bool
  sourceExists : Bool
  photoRecord : Option (String × String)
deriving DecidableEq

/-- The print-photo task built by the second route variant
([imageName].get.ts lines 149-158): storage key photos/name, priority 5,
three attempts, pending. -/
def mkPrintTask (name : String) (env : RouteEnv) : PrintTaskSpec :=
  { taskType := "print-photo"
    storageKey := "photos/" ++ name
    photoId := env.photoRecord.map Prod.fst
    locationName := ((env.photoRecord.map Prod.snd).getD "")
    priority := 5
    maxAttempts := 3
    taskStatus := "pending" }

/-- First route variant ([imageName].get.ts lines 26-63): path guards, local
provider check, then stream the print file if present, otherwise a plain
404. Paths are modelled relative to the storage base path. -/
def handlerV1 (imageName : String) (env : RouteEnv) : RouteOutcome :=
  if imageName = "" then
    ⟨RouteResponse.err 400 "Image name is required", [], []⟩
  else if hasTraversal imageName then
    ⟨RouteResponse.err 400 "Invalid image name", [], []⟩
  else if env.providerLocal = false then
    ⟨RouteResponse.err 404 "Not Found", [], []⟩
  else
    if env.printExists then
      ⟨RouteResponse.stream ("photos/print/" ++ imageName)
        (guessContentType ("photos/print/" ++ imageName)), [],
        ["photos/print/" ++ imageName]⟩
    else
      ⟨RouteResponse.err 404
        "Print image not found. It may still be processing or the source image does not exist.",
        [], ["photos/print/" ++ imageName]⟩

/-- Second route variant ([imageName].get.ts lines 89-168). When the print
file is missing but the source exists, the handler enqueues a print-photo
task and then throws the 404 processing error at line 161; that throw sits
inside the same try block whose catch at line 162 replaces any exception
with the 404 "Image not found" error, so both the source-present and the
source-absent cases produce that same response. -/
def handlerV2 (imageName : String) (env : RouteEnv) : RouteOutcome :=
  if imageName = "" then
    ⟨RouteResponse.err 400 "Image name is required", [], []⟩
  else if hasTraversal imageName then
    ⟨RouteResponse.err 400 "Invalid image name", [], []⟩
  else if env.providerLocal = false then
    ⟨RouteResponse.err 404 "Not Found", [], []⟩
  else
    if env.printExists then
      ⟨RouteResponse.stream ("photos/print/" ++ imageName)
        (guessContentType ("photos/print/" ++ imageName)), [],
        ["photos/print/" ++ imageName]⟩
    else
      if env.sourceExists then
        ⟨RouteResponse.err 404 "Image not found", [mkPrintTask imageName env],
          ["photos/print/" ++ imageName, "photos/" ++ imageName]⟩
      else
        ⟨RouteResponse.err 404 "Image not found", [],
          ["photos/print/" ++ imageName, "photos/" ++ imageName]⟩

/-- HTTP status of a response (a successful stream is 200). -/
def responseStatus : RouteResponse → ℤ
  | RouteResponse.stream _ _ => 200
  | RouteResponse.err s _ => s

/-! ### Storage effect trace of processPrintPhoto (first variant) -/

/-- Storage-level effects of the print job processor. -/
inductive StorageEvent
  | read (key : String)
  | mkdirPrintDir
  | write (key : String) (contentType : String)
deriving DecidableEq

/-- The derived artifact key (print-processor.ts lines 326-327). -/
def printKeyOf (storageKey : String) : String := "print/" ++ basename storageKey

/-- The storage effects of one run of processPrintPhoto
(print-processor.ts): a read of the source key; if the source is absent the
run throws with no further effect; otherwise the image work is pure until
the print directory is ensured (local provider only, lines 312-323) and the
single artifact write at the derived key with content type image/jpeg
(lines 325-329), which is the last effect. The source argument is the
source dimensions when the key resolves to a readable image, none
otherwise. The Boolean records whether the run succeeded. -/
def processPrintPhotoEvents (storageKey : String) (providerLocal : Bool)
    (source : Option (ℤ × ℤ)) : List StorageEvent × Bool :=
  match source with
  | none => ([StorageEvent.read storageKey], false)
  | some _ =>
      (StorageEvent.read storageKey ::
        ((if providerLocal then [StorageEvent.mkdirPrintDir] else []) ++
          [StorageEvent.write (printKeyOf storageKey) "image/jpeg"]), true)

/-- The write events of a trace, as key and content type pairs. -/
def writeEvents (l : List StorageEvent) : List (String × String) :=
  l.filterMap fun e =>
    match e with
    | StorageEvent.write k ct => some (k, ct)
    | _ => none

/-! ### EXIF reattachment step of the second processor variant
(src/unnamed/part_003 lines 345-436) -/

/-- The fallible operations of the reattachment-and-store section, in
program order for a source with an EXIF segment: write the two temp files,
run the external exiftool copy, read the tagged file back, unlink the two
temp files, ensure the print directory, store the artifact. -/
inductive ReattachStep
  | writeTempProcessed
  | writeTempOriginal
  | exifCopy
  | readBack
  | unlinkTempProcessed
  | unlinkTempOriginal
  | mkdirStep
  | storeArtifact
deriving DecidableEq

/-- Observable state after the reattachment-and-store section: whether each
temp file is still on disk, whether the artifact was stored, and whether the
stored artifact carries the reattached metadata. -/
structure PState where
  tempProcessed : Bool
  tempOriginal : Bool
  stored : Bool
  storedWithExif : Option Bool
deriving DecidableEq

/-- src/unnamed/part_003 lines 345-436. With EXIF present the code runs the
steps in order inside a try block whose finally block is empty (lines
407-409); the two unlink calls sit between readBack and mkdir on the
success path only. There is no catch before the outer catch at line 437,
which logs and rethrows, so the first failing step aborts the section with
the error propagated to the caller and no cleanup. Without EXIF the
artifact is stored directly without metadata. The failAt argument injects a
failure at one step. -/
def reattachAndStore (exifPresent : Bool) (failAt : Option ReattachStep) :
    PState × Except ReattachStep Unit :=
  if exifPresent then
    if failAt = some ReattachStep.writeTempProcessed then
      (⟨false, false, false, none⟩, Except.error ReattachStep.writeTempProcessed)
    else if failAt = some ReattachStep.writeTempOriginal then
      (⟨true, false, false, none⟩, Except.error ReattachStep.writeTempOriginal)
    else if failAt = some ReattachStep.exifCopy then
      (⟨true, true, false, none⟩, Except.error ReattachStep.exifCopy)
    else if failAt = some ReattachStep.readBack then
      (⟨true, true, false, none⟩, Except.error ReattachStep.readBack)
    else if failAt = some ReattachStep.unlinkTempProcessed then
      (⟨true, true, false, none⟩, Except.error ReattachStep.unlinkTempProcessed)
    else if failAt = some ReattachStep.unlinkTempOriginal then
      (⟨false, true, false, none⟩, Except.error ReattachStep.unlinkTempOriginal)
    else if failAt = some ReattachStep.mkdirStep then
      (⟨false, false, false, none⟩, Except.error ReattachStep.mkdirStep)
    else if failAt = some ReattachStep.storeArtifact then
      (⟨false, false, false, none⟩, Except.error ReattachStep.storeArtifact)
    else
      (⟨false, false, true, some true⟩, Except.ok ())
  else
    if failAt = some ReattachStep.mkdirStep then
      (⟨false, false, false, none⟩, Except.error ReattachStep.mkdirStep)
    else if failAt = some ReattachStep.storeArtifact then
      (⟨false, false, false, none⟩, Except.error ReattachStep.storeArtifact)
    else
      (⟨false, false, true, some false⟩, Except.ok ())

/-- Concrete environments used by counterexamples and witnesses: local
provider, print artifact absent; the source image present or absent. -/
def envSrcPresent : RouteEnv := ⟨true, false, true, none⟩

def envSrcAbsent : RouteEnv := ⟨true, false, false, none⟩

/-! ### Helper lemmas -/

theorem jsRound_le (q : ℚ) : (jsRound q : ℚ) ≤ q + 1/2 := Int.floor_le _

theorem lt_jsRound (q : ℚ) : q - 1/2 < (jsRound q : ℚ) := by
  have h := Int.sub_one_lt_floor (q + 1/2)
  unfold jsRound
  linarith

theorem jsAbs_le {x c : ℚ} (h : jsAbs x ≤ c) : -c ≤ x ∧ x ≤ c := by
  unfold jsAbs at h
  split_ifs at h with hx
  · constructor <;> linarith
  · constructor <;> linarith

theorem jsFloor_le_jsRound (q : ℚ) : jsFloor q ≤ jsRound q := by
  unfold jsFloor jsRound
  exact Int.floor_mono (by linarith)

theorem two_jsRound_half (a : ℤ) :
    2 * jsRound ((a : ℚ) / 2) = a ∨ 2 * jsRound ((a : ℚ) / 2) = a + 1 := by
  rcases Int.even_or_odd a with ⟨m, hm⟩ | ⟨m, hm⟩
  · left
    subst hm
    have h2 : ((m + m : ℤ) : ℚ) / 2 + 1/2 = (m : ℚ) + 1/2 := by push_cast; ring
    unfold jsRound
    rw [h2, show ((m : ℚ) + 1/2) = (m : ℚ) + (1/2 : ℚ) from rfl, Int.floor_int_add]
    have : ⌊(1/2 : ℚ)⌋ = 0 := by norm_num
    rw [this]
    ring
  · right
    subst hm
    have h2 : ((2 * m + 1 : ℤ) : ℚ) / 2 + 1/2 = ((m + 1 : ℤ) : ℚ) := by push_cast; ring
    unfold jsRound
    rw [h2, Int.floor_intCast]
    ring

theorem floorAdjustHeight_of_pos (w h : ℤ)
    (hp : ¬ jsRound ((w : ℚ) * 3 / 4) - h ≤ 0) : floorAdjustHeight w h = h := by
  unfold floorAdjustHeight
  rw [if_neg hp]

/-- Each branch of the 3:2 crop keeps the aspect within one half unit of
rounding of 3:2; for source sides of at least 750 that puts it inside
the interval [1.499, 1.501]. -/
theorem cropTo32_aspect (w h : ℤ) (hw : 750 ≤ w) (hh : 750 ≤ h) :
    1499/1000 ≤ ((cropTo32 w h).1 : ℚ) / ((cropTo32 w h).2 : ℚ) ∧
      ((cropTo32 w h).1 : ℚ) / ((cropTo32 w h).2 : ℚ) ≤ 1501/1000 := by
  have hwq : (750 : ℚ) ≤ (w : ℚ) := by exact_mod_cast hw
  have hhq : (750 : ℚ) ≤ (h : ℚ) := by exact_mod_cast hh
  have hhpos : (0 : ℚ) < (h : ℚ) := by linarith
  unfold cropTo32
  split_ifs with hgap hgt
  · -- the source is wider than 3:2: the width is cropped to round(h * 3/2)
    have h1 : (jsRound ((h : ℚ) * (3/2)) : ℚ) ≤ (h : ℚ) * (3/2) + 1/2 := jsRound_le _
    have h2 : (h : ℚ) * (3/2) - 1/2 < (jsRound ((h : ℚ) * (3/2)) : ℚ) := lt_jsRound _
    constructor
    · show (1499/1000 : ℚ) ≤ (jsRound ((h : ℚ) * (3/2)) : ℚ) / (h : ℚ)
      rw [le_div_iff₀ hhpos]
      linarith
    · show (jsRound ((h : ℚ) * (3/2)) : ℚ) / (h : ℚ) ≤ 1501/1000
      rw [div_le_iff₀ hhpos]
      linarith
  · -- the source is taller than 3:2: the height is cropped to round(w / (3/2))
    set t : ℤ := jsRound ((w : ℚ) / (3/2)) with ht
    have h1 : (t : ℚ) ≤ (w : ℚ) / (3/2) + 1/2 := jsRound_le _
    have h2 : (w : ℚ) / (3/2) - 1/2 < (t : ℚ) := lt_jsRound _
    have hdiv : (w : ℚ) / (3/2) = 2 * (w : ℚ) / 3 := by ring
    rw [hdiv] at h1 h2
    have hi1 : 3 * t ≤ 2 * w + 1 := by
      have hc : ((3 * t : ℤ) : ℚ) < ((2 * w + 2 : ℤ) : ℚ) := by push_cast; linarith
      have hc2 : (3 * t : ℤ) < 2 * w + 2 := by exact_mod_cast hc
      omega
    have hi2 : 2 * w - 1 ≤ 3 * t := by
      have hc : ((2 * w - 2 : ℤ) : ℚ) < ((3 * t : ℤ) : ℚ) := by push_cast; linarith
      have hc2 : (2 * w - 2 : ℤ) < 3 * t := by exact_mod_cast hc
      omega
    have hi3 : 500 ≤ t := by omega
    have hq1 : (3 * (t : ℚ)) ≤ 2 * (w : ℚ) + 1 := by exact_mod_cast hi1
    have hq2 : 2 * (w : ℚ) - 1 ≤ 3 * (t : ℚ) := by exact_mod_cast hi2
    have hq3 : (500 : ℚ) ≤ (t : ℚ) := by exact_mod_cast hi3
    have htpos : (0 : ℚ) < (t : ℚ) := by linarith
    constructor
    · show (1499/1000 : ℚ) ≤ (w : ℚ) / (t : ℚ)
      rw [le_div_iff₀ htpos]
      linarith
    · show (w : ℚ) / (t : ℚ) ≤ 1501/1000
      rw [div_le_iff₀ htpos]
      linarith
  · -- no crop: the aspect is already within 0.001 of 3:2
    have habs : jsAbs ((w : ℚ) / h - 3/2) ≤ 1/1000 := not_lt.mp hgap
    have hb := jsAbs_le habs
    constructor
    · linarith [hb.1]
    · linarith [hb.2]

/-! ### Claim theorems -/

/-- C3 counterexample: for the 2 by 1 source the floor policy is not
engaged, yet the crop stage leaves the content at aspect 2, outside
[1.499, 1.501]: round(1 * 3/2) = 2 keeps the width at 2 over height 1. -/
theorem C3_crop_aspect_counterexample :
    ¬ floorPolicyEngaged 2 1 ∧ contentAspect (planGeometry 2 1) = 2 ∧
      ¬ contentAspect (planGeometry 2 1) ≤ 1501/1000 := by
  refine ⟨?_, ?_, ?_⟩ <;>
    norm_num [floorPolicyEngaged, contentAspect, planGeometry, croppedDims, cropTo32,
      rotateDims, jsAbs, jsRound, floorAdjustHeight, jsFloor]

/-- C3 (amended): for source dimensions at least 750 on each side, whenever
the band-height floor policy is not engaged the planned content aspect lies
in [1.499, 1.501]; for smaller sources the rounding of the crop can leave
the aspect outside the interval. -/
theorem C3_crop_aspect_amended (W H : ℤ) (hW : 750 ≤ W) (hH : 750 ≤ H)
    (hnf : ¬ floorPolicyEngaged W H) :
    1499/1000 ≤ contentAspect (planGeometry W H) ∧
      contentAspect (planGeometry W H) ≤ 1501/1000 := by
  have hr1 : 750 ≤ (rotateDims W H).1 := by
    unfold rotateDims
    split_ifs <;> assumption
  have hr2 : 750 ≤ (rotateDims W H).2 := by
    unfold rotateDims
    split_ifs <;> assumption
  have hmain := cropTo32_aspect (rotateDims W H).1 (rotateDims W H).2 hr1 hr2
  have hnf' : ¬ jsRound (((croppedDims W H).1 : ℚ) * 3 / 4) - (croppedDims W H).2 ≤ 0 := hnf
  have hadj : floorAdjustHeight (croppedDims W H).1 (croppedDims W H).2 = (croppedDims W H).2 :=
    floorAdjustHeight_of_pos _ _ hnf'
  unfold contentAspect planGeometry
  rw [hadj]
  exact hmain

/-- Evaluation helper: the floor policy is not engaged for a 3000 by 2000
source. -/
theorem notEngaged_3000_2000 : ¬ floorPolicyEngaged 3000 2000 := by
  norm_num [floorPolicyEngaged, croppedDims, cropTo32, rotateDims, jsAbs, jsRound]

/-- Witness for C3 (amended) at the 3000 by 2000 source. -/
theorem C3_crop_aspect_amended_witness :
    (750 ≤ (3000 : ℤ) ∧ 750 ≤ (2000 : ℤ) ∧ ¬ floorPolicyEngaged 3000 2000) ∧
      (1499/1000 ≤ contentAspect (planGeometry 3000 2000) ∧
        contentAspect (planGeometry 3000 2000) ≤ 1501/1000) :=
  ⟨⟨by decide, by decide, notEngaged_3000_2000⟩,
    C3_crop_aspect_amended 3000 2000 (by decide) (by decide) notEngaged_3000_2000⟩

/-- C4: whenever the band height round(w * 3/4) - h is nonpositive, the
floor policy re-crops the content to floor(w * 3/4) - 50 exactly when that
value is positive and below the current height, and the recomputed band
height is then at least 50; otherwise the height is kept and the recomputed
band height stays nonpositive. -/
theorem C4_band_floor_policy (w h : ℤ) (hband : jsRound ((w : ℚ) * 3 / 4) - h ≤ 0) :
    if 0 < jsFloor ((w : ℚ) * 3 / 4) - 50 ∧ jsFloor ((w : ℚ) * 3 / 4) - 50 < h then
      floorAdjustHeight w h = jsFloor ((w : ℚ) * 3 / 4) - 50 ∧
        50 ≤ jsRound ((w : ℚ) * 3 / 4) - floorAdjustHeight w h
    else
      floorAdjustHeight w h = h ∧ jsRound ((w : ℚ) * 3 / 4) - floorAdjustHeight w h ≤ 0 := by
  have hfr := jsFloor_le_jsRound ((w : ℚ) * 3 / 4)
  unfold floorAdjustHeight
  rw [if_pos hband]
  split_ifs with hc
  · exact ⟨rfl, by omega⟩
  · exact ⟨rfl, by omega⟩

/-- Evaluation helper: for a 100 by 100 content size the computed band
height is nonpositive. -/
theorem band_100_100_nonpos : jsRound ((100 : ℚ) * 3 / 4) - 100 ≤ 0 := by
  norm_num [jsRound]

/-- Witness for C4 at the 100 by 100 content size. -/
theorem C4_band_floor_policy_witness :
    (jsRound ((100 : ℚ) * 3 / 4) - 100 ≤ 0) ∧
      (if 0 < jsFloor ((100 : ℚ) * 3 / 4) - 50 ∧ jsFloor ((100 : ℚ) * 3 / 4) - 50 < 100 then
        floorAdjustHeight 100 100 = jsFloor ((100 : ℚ) * 3 / 4) - 50 ∧
          50 ≤ jsRound ((100 : ℚ) * 3 / 4) - floorAdjustHeight 100 100
      else
        floorAdjustHeight 100 100 = 100 ∧
          jsRound ((100 : ℚ) * 3 / 4) - floorAdjustHeight 100 100 ≤ 0) :=
  ⟨band_100_100_nonpos, C4_band_floor_policy 100 100 band_100_100_nonpos⟩

/-- C5: the foreground choice is black exactly when the relative luminance
of the rounded channel means exceeds 0.5 and is otherwise white, so it is
always one of the two values and the stroke uses the opposite one; the
boundary mean (128, 128, 128) has luminance 128/255, about 0.502, and
yields black. -/
theorem C5_color_analysis (r g b : ℚ) :
    (foregroundColor r g b = FgColor.black ↔
      1/2 < relativeLuminance (jsRound r) (jsRound g) (jsRound b)) ∧
    (foregroundColor r g b = FgColor.black ∨ foregroundColor r g b = FgColor.white) ∧
    strokeColor (foregroundColor r g b) ≠ foregroundColor r g b ∧
    relativeLuminance 128 128 128 = 128/255 ∧
    (501/1000 < relativeLuminance 128 128 128 ∧ relativeLuminance 128 128 128 < 503/1000) ∧
    foregroundColor 128 128 128 = FgColor.black := by
  refine ⟨?_, ?_, ?_, ?_, ⟨?_, ?_⟩, ?_⟩
  · unfold foregroundColor
    split_ifs with hL
    · exact iff_of_true rfl hL
    · exact iff_of_false (by decide) hL
  · unfold foregroundColor
    split_ifs <;> simp
  · unfold foregroundColor
    split_ifs <;> simp [strokeColor]
  · norm_num [relativeLuminance]
  · norm_num [relativeLuminance]
  · norm_num [relativeLuminance]
  · norm_num [foregroundColor, relativeLuminance, jsRound]

/-- C8 counterexample: a 40 by 40 source plans a band height of 3, so the
QR size band - 20 evaluates to -17; the code applies no positive minimum
and the size is not positive. -/
theorem C8_qr_size_counterexample :
    (planGeometry 40 40).bandHeight = 3 ∧
    qrCodeSize (planGeometry 40 40).bandHeight = -17 ∧
    ¬ 0 < qrCodeSize (planGeometry 40 40).bandHeight := by
  refine ⟨?_, ?_, ?_⟩ <;>
    norm_num [planGeometry, croppedDims, cropTo32, rotateDims, jsAbs, jsRound,
      floorAdjustHeight, jsFloor, qrCodeSize]

/-- C8 (amended): the QR size is exactly the band height minus 20 with no
positive minimum (it is nonpositive whenever the band height is at most
20); the raster is horizontally centered (twice the x position plus the
size exceeds the width by at most one rounding unit), sits exactly 10 units
below the content top of the band (vertically centered, as the margin is
20), uses the foreground color for dark modules, and a transparent light
color. -/
theorem C8_qr_spec_amended (w h band : ℤ) (fg : FgColor) :
    (mkQrSpec w h band (foregroundColorHex fg)).size = band - 20 ∧
    (2 * (mkQrSpec w h band (foregroundColorHex fg)).posX +
        (mkQrSpec w h band (foregroundColorHex fg)).size - w = 0 ∨
      2 * (mkQrSpec w h band (foregroundColorHex fg)).posX +
        (mkQrSpec w h band (foregroundColorHex fg)).size - w = 1) ∧
    (mkQrSpec w h band (foregroundColorHex fg)).posY = h + 10 ∧
    (mkQrSpec w h band (foregroundColorHex fg)).dark = foregroundColorHex fg ∧
    (mkQrSpec w h band (foregroundColorHex fg)).light = "#ffffff00" := by
  refine ⟨rfl, ?_, ?_, rfl, rfl⟩
  · have hhalf := two_jsRound_half (w - qrCodeSize band)
    simp only [mkQrSpec]
    rcases hhalf with h1 | h1
    · left
      linarith
    · right
      linarith
  · have h20 : (band - qrCodeSize band : ℤ) = 20 := by
      unfold qrCodeSize
      ring
    simp only [mkQrSpec]
    rw [h20]
    norm_num [jsRound]

/-- C9: the 4000 by 6000 portrait source is conceptually rotated to
6000 by 4000, needs no crop, gets band height round(6000 * 3/4) - 4000 =
500 and font size max(8, round(500/4)) = 125; in general the font size is
max(8, round(band/4)). -/
theorem C9_font_size_scenario :
    (planGeometry 4000 6000).rotated = true ∧
    (planGeometry 4000 6000).contentWidth = 6000 ∧
    (planGeometry 4000 6000).contentHeight = 4000 ∧
    (planGeometry 4000 6000).bandHeight = 500 ∧
    fontSize (planGeometry 4000 6000).bandHeight = 125 ∧
    (∀ band : ℤ, fontSize band = max 8 (jsRound ((band : ℚ) / 4))) := by
  refine ⟨?_, ?_, ?_, ?_, ?_, fun band => rfl⟩ <;>
    norm_num [planGeometry, croppedDims, cropTo32, rotateDims, jsAbs, jsRound,
      floorAdjustHeight, jsFloor, fontSize]

/-- C1 counterexample: with the print artifact absent, the second route
variant answers 404 "Image not found" both when the source exists (after
enqueueing the task, because its own catch swallows the processing error)
and when it does not; the first variant answers 404 without enqueueing.
The two cases share the same status. -/
theorem C1_serving_status_counterexample :
    responseStatus (handlerV2 "a.jpg" envSrcPresent).response = 404 ∧
    responseStatus (handlerV2 "a.jpg" envSrcAbsent).response = 404 ∧
    (handlerV2 "a.jpg" envSrcPresent).enqueued = [mkPrintTask "a.jpg" envSrcPresent] ∧
    (handlerV2 "a.jpg" envSrcPresent).response = (handlerV2 "a.jpg" envSrcAbsent).response ∧
    responseStatus (handlerV1 "a.jpg" envSrcPresent).response = 404 ∧
    (handlerV1 "a.jpg" envSrcPresent).enqueued = [] := by
  decide

/-- C1 (amended): for every valid image name on a local provider with the
print artifact absent, the second route variant enqueues a print-photo task
exactly when the source exists, but answers 404 "Image not found" in both
the source-present and the source-absent case — the same status and
message, because the processing response is intercepted by the handler's
own catch block; the first variant never enqueues anything. -/
theorem C1_serving_status_amended (name : String) (env : RouteEnv)
    (h1 : name ≠ "") (h2 : hasTraversal name = false)
    (h3 : env.providerLocal = true) (h4 : env.printExists = false) :
    handlerV2 name { env with sourceExists := true } =
      ⟨RouteResponse.err 404 "Image not found",
        [mkPrintTask name { env with sourceExists := true }],
        ["photos/print/" ++ name, "photos/" ++ name]⟩ ∧
    handlerV2 name { env with sourceExists := false } =
      ⟨RouteResponse.err 404 "Image not found", [],
        ["photos/print/" ++ name, "photos/" ++ name]⟩ ∧
    (handlerV2 name { env with sourceExists := true }).response =
      (handlerV2 name { env with sourceExists := false }).response ∧
    (handlerV1 name env).enqueued = [] := by
  unfold handlerV1 handlerV2
  simp [h1, h2, h3, h4]

/-- Witness for C1 (amended) at the name a.jpg and a local environment. -/
theorem C1_serving_status_amended_witness :
    (hasTraversal "a.jpg" = false ∧ envSrcAbsent.providerLocal = true ∧
      envSrcAbsent.printExists = false) ∧
    (handlerV2 "a.jpg" { envSrcAbsent with sourceExists := true }).response =
      (handlerV2 "a.jpg" { envSrcAbsent with sourceExists := false }).response :=
  ⟨⟨by decide, rfl, rfl⟩,
    (C1_serving_status_amended "a.jpg" envSrcAbsent (by decide) (by decide) rfl rfl).2.2.1⟩

/-- C2 counterexample: with EXIF present, a failure of the external
metadata-copy step leaves the artifact unstored and propagates the error
to the caller; the job does not complete. -/
theorem C2_exif_failure_counterexample :
    (reattachAndStore true (some ReattachStep.exifCopy)).1.stored = false ∧
    (reattachAndStore true (some ReattachStep.exifCopy)).2 =
      Except.error ReattachStep.exifCopy :=
  ⟨rfl, rfl⟩

/-- C2 (amended): a failure at any step of the reattachment-and-store
section aborts the job with the error propagated to the queue and no
artifact stored; the artifact is stored without reattached metadata only
when the source has no EXIF segment, and with it only when every step
succeeds. -/
theorem C2_exif_failure_amended (step : ReattachStep) :
    (reattachAndStore true (some step)).1.stored = false ∧
    (reattachAndStore true (some step)).2 = Except.error step ∧
    (reattachAndStore true none).1.stored = true ∧
    (reattachAndStore true none).1.storedWithExif = some true ∧
    (reattachAndStore false none).1.stored = true ∧
    (reattachAndStore false none).1.storedWithExif = some false := by
  cases step <;> exact ⟨rfl, rfl, rfl, rfl, rfl, rfl⟩

/-- C6: the code cleans both temp files only on the all-success path; when
the external metadata-copy step throws, both temp files are left on disk
and the error propagates, contradicting the every-exit-path deletion the
code itself promises. -/
theorem C6_temp_leak_bug :
    (reattachAndStore true (some ReattachStep.exifCopy)).1.tempProcessed = true ∧
    (reattachAndStore true (some ReattachStep.exifCopy)).1.tempOriginal = true ∧
    (reattachAndStore true (some ReattachStep.exifCopy)).2 =
      Except.error ReattachStep.exifCopy ∧
    (reattachAndStore true none).1.tempProcessed = false ∧
    (reattachAndStore true none).1.tempOriginal = false :=
  ⟨rfl, rfl, rfl, rfl, rfl⟩

/-- C7: a successful run of the processor performs exactly one storage
write, at print/basename(key) with content type image/jpeg, as its final
storage effect; the source key is never written, and re-running with any
other source dimensions produces the same effects, so the target key and
content type are idempotent. -/
theorem C7_single_artifact_write (key : String) (pLocal : Bool) (w h w2 h2 : ℤ)
    (hkey : printKeyOf key ≠ key) :
    (processPrintPhotoEvents key pLocal (some (w, h))).2 = true ∧
    writeEvents (processPrintPhotoEvents key pLocal (some (w, h))).1 =
      [(printKeyOf key, "image/jpeg")] ∧
    (∃ pre, (processPrintPhotoEvents key pLocal (some (w, h))).1 =
      pre ++ [StorageEvent.write (printKeyOf key) "image/jpeg"]) ∧
    (∀ ct, (key, ct) ∉ writeEvents (processPrintPhotoEvents key pLocal (some (w, h))).1) ∧
    processPrintPhotoEvents key pLocal (some (w, h)) =
      processPrintPhotoEvents key pLocal (some (w2, h2)) := by
  cases pLocal
  · refine ⟨rfl, rfl, ⟨[StorageEvent.read key], rfl⟩, ?_, rfl⟩
    intro ct hct
    simp only [processPrintPhotoEvents, writeEvents, List.filterMap] at hct
    simp only [List.mem_singleton, Prod.mk.injEq] at hct
    exact hkey hct.1.symm
  · refine ⟨rfl, rfl, ⟨[StorageEvent.read key, StorageEvent.mkdirPrintDir], rfl⟩, ?_, rfl⟩
    intro ct hct
    simp only [processPrintPhotoEvents, writeEvents, List.filterMap] at hct
    simp only [List.mem_singleton, Prod.mk.injEq] at hct
    exact hkey hct.1.symm

/-- Witness for C7 at the key photos/a.jpg on a local provider. -/
theorem C7_single_artifact_write_witness :
    printKeyOf "photos/a.jpg" ≠ "photos/a.jpg" ∧
      writeEvents (processPrintPhotoEvents "photos/a.jpg" true (some (4, 6))).1 =
        [(printKeyOf "photos/a.jpg", "image/jpeg")] :=
  ⟨by decide, (C7_single_artifact_write "photos/a.jpg" true 4 6 8 12 (by decide)).2.1⟩

/-- C10: an image name containing "..", "/" or a backslash is rejected by
both route variants with a 400 Invalid image name error, before any
filesystem access and before any task is enqueued. -/
theorem C10_traversal_guard (name : String) (env : RouteEnv)
    (h : hasTraversal name = true) :
    handlerV1 name env = ⟨RouteResponse.err 400 "Invalid image name", [], []⟩ ∧
    handlerV2 name env = ⟨RouteResponse.err 400 "Invalid image name", [], []⟩ := by
  have hne : name ≠ "" := by
    intro he
    rw [he] at h
    exact absurd h (by decide)
  unfold handlerV1 handlerV2
  simp [hne, h]

/-- Witness for C10 at the traversal name ../secret. -/
theorem C10_traversal_guard_witness :
    hasTraversal "../secret" = true ∧
      (handlerV2 "../secret" envSrcAbsent).fsChecked = [] ∧
      (handlerV2 "../secret" envSrcAbsent).enqueued = [] := by
  refine ⟨by decide, ?_, ?_⟩ <;>
    rw [(C10_traversal_guard "../secret" envSrcAbsent (by decide)).2]

/-- Witness for C2 (amended) at a readBack failure. -/
theorem C2_exif_failure_amended_witness :
    (reattachAndStore true (some ReattachStep.readBack)).1.stored = false ∧
      (reattachAndStore true (some ReattachStep.readBack)).2 =
        Except.error ReattachStep.readBack :=
  ⟨(C2_exif_failure_amended ReattachStep.readBack).1,
    (C2_exif_failure_amended ReattachStep.readBack).2.1⟩

/-- Witness for C5 at the boundary mean (128, 128, 128). -/
theorem C5_color_analysis_witness :
    foregroundColor 128 128 128 = FgColor.black :=
  (C5_color_analysis 128 128 128).2.2.2.2.2

/-- Witness for C8 (amended) at a 6000 wide content with a 500 band. -/
theorem C8_qr_spec_amended_witness :
    (mkQrSpec 6000 4000 500 (foregroundColorHex FgColor.black)).size = 500 - 20 ∧
      (mkQrSpec 6000 4000 500 (foregroundColorHex FgColor.black)).posY = 4000 + 10 :=
  ⟨(C8_qr_spec_amended 6000 4000 500 FgColor.black).1,
    (C8_qr_spec_amended 6000 4000 500 FgColor.black).2.2.1⟩
